import Mathlib

/-!
Shallow embedding of `src/index.ts` of predictr-io/aws-glue-crawler: a GitHub
Action that starts an AWS Glue crawler, optionally polls its state until the
terminal "READY" value or a wall-clock timeout, then surfaces run metrics.
Remote calls (start / get-state / get-metrics) and the clock are modelled by an
explicit environment; the unbounded polling loop is modelled with fuel, `none`
standing for "still polling after `fuel` iterations".
-/

namespace GlueCrawler

/-- A JavaScript thrown value as seen by the top-level catch: `isError` records
whether it is an `Error` instance, `message` its message when it is one. -/
structure JsError where
  isError : Bool
  message : String
deriving DecidableEq

/-- The optional fields of one entry of `GetCrawlerMetrics`'s
`CrawlerMetricsList` that the code reads. -/
structure CrawlerMetrics where
  tablesCreated : Option Nat
  tablesUpdated : Option Nat
  tablesDeleted : Option Nat
deriving DecidableEq

/-- The raw action inputs as the runner delivers them to `core.getInput`:
an absent input is the empty string. -/
structure Inputs where
  crawlerName : String
  waitForCompletion : String
  timeoutMinutes : String
deriving DecidableEq

/-- Environment of remote-call results and clock readings: `statusResult i` is
the outcome of the `GetCrawler` call of poll iteration `i` (the crawler state
`response.Crawler?.State`, possibly absent), and `elapsedAt i` is the value of
`Date.now() - startTime` at iteration `i`'s timeout check. -/
structure Env where
  startResult : Except JsError Unit
  statusResult : Nat → Except JsError (Option String)
  metricsResult : Except JsError (Option CrawlerMetrics)
  elapsedAt : Nat → Int

/-- The outputs emitted via `core.setOutput`, by key; `none` means the output
was never set. -/
structure Outputs where
  success : Option String
  state : Option String
  tablesCreated : Option String
  tablesUpdated : Option String
  tablesDeleted : Option String
deriving DecidableEq

def Outputs.empty : Outputs := ⟨none, none, none, none, none⟩

/-- How many times each remote operation was invoked. -/
structure Calls where
  startCalls : Nat
  statusCalls : Nat
  metricsCalls : Nat
deriving DecidableEq

def Calls.zero : Calls := ⟨0, 0, 0⟩

/-- The externally visible outcome of one invocation: the outputs, the remote
calls issued, and the `core.setFailed` message if any. -/
structure RunResult where
  outputs : Outputs
  calls : Calls
  failed : Option String
deriving DecidableEq

/-- JavaScript `String.prototype.trim`: strip whitespace from both ends. -/
def jsTrim (s : String) : String :=
  String.mk
    (((s.toList.dropWhile (fun c => c.isWhitespace)).reverse.dropWhile
      (fun c => c.isWhitespace)).reverse)

/-- The `@actions/core` `getInput` result: the raw value, trimmed. -/
def getInputVal (raw : String) : String := jsTrim raw

/-- Base-10 value of a digit list, most significant digit first. -/
def digitsVal (ds : List Char) : Nat :=
  ds.foldl (fun n c => n * 10 + (c.toNat - 48)) 0

/-- JavaScript `parseInt(s, 10)`: skip leading whitespace, an optional sign,
then read the longest run of decimal digits; `none` models `NaN`, returned
when no digit is read. -/
def parseIntJS (s : String) : Option Int :=
  match s.toList.dropWhile (fun c => c.isWhitespace) with
  | [] => none
  | c :: rest =>
    if c = '-' then
      let ds := rest.takeWhile (fun x => x.isDigit)
      if ds = [] then none else some (-(digitsVal ds : Int))
    else if c = '+' then
      let ds := rest.takeWhile (fun x => x.isDigit)
      if ds = [] then none else some ((digitsVal ds : Int))
    else
      let ds := (c :: rest).takeWhile (fun x => x.isDigit)
      if ds = [] then none else some ((digitsVal ds : Int))

/-- A JavaScript number interpolated into a template string: `none` is `NaN`. -/
def jsNumToString (n : Option Int) : String :=
  match n with
  | none => "NaN"
  | some i => toString i

/-- Line 8: `core.getInput('wait-for-completion') === 'true'`. -/
def waitForCompletionOf (raw : String) : Bool :=
  getInputVal raw == "true"

/-- The string handed to `parseInt` at line 9: `core.getInput('timeout-minutes')
|| '60'` — the empty string is falsy, so it is replaced by `'60'`. -/
def timeoutStrOf (raw : String) : String :=
  if getInputVal raw = "" then ("60") else getInputVal raw

/-- Line 9: `parseInt(core.getInput('timeout-minutes') || '60', 10)`. -/
def timeoutMinutesOf (raw : String) : Option Int :=
  parseIntJS (timeoutStrOf raw)

/-- Modelled from the spec: `action.yml` is not under `src/`; per the spec's
input table the runner substitutes the declared default (`"true"` for
`wait-for-completion`, `"60"` for `timeout-minutes`) when the workflow leaves
the input absent, which reaches the code as the raw input value. -/
def actionDefault (raw dflt : String) : String :=
  if raw = "" then dflt else raw

/-- Models `metrics?.TablesX?.toString() || '0'`: an absent field gives `'0'`; a
present count stringifies to a nonempty (hence truthy) string. -/
def metricOutput (m : Option Nat) : String :=
  match m with
  | none => "0"
  | some n => toString n

/-- Lines 45-63: the `GetCrawlerMetrics` call inside its own try/catch. A
rejection is swallowed and all three outputs default to `'0'`; on success each
output comes from `CrawlerMetricsList?.[0]` via `metricOutput`. -/
def setMetricOutputs (env : Env) (out : Outputs) (calls : Calls) :
    Outputs × Calls :=
  let calls1 := { calls with metricsCalls := calls.metricsCalls + 1 }
  match env.metricsResult with
  | Except.ok om =>
    ({ out with
        tablesCreated := some (metricOutput (om.bind CrawlerMetrics.tablesCreated)),
        tablesUpdated := some (metricOutput (om.bind CrawlerMetrics.tablesUpdated)),
        tablesDeleted := some (metricOutput (om.bind CrawlerMetrics.tablesDeleted)) },
      calls1)
  | Except.error _ =>
    ({ out with
        tablesCreated := some ("0"),
        tablesUpdated := some ("0"),
        tablesDeleted := some ("0") },
      calls1)

/-- Line 70: `new Error(\x60Crawler did not complete within $\x7btimeoutMinutes\x7d
minutes\x60)`. -/
def timeoutErrorOf (tm : Option Int) : JsError :=
  { isError := true,
    message := "Crawler did not complete within " ++ jsNumToString tm ++ " minutes" }

/-- Line 69: `Date.now() - startTime > timeoutMs`; when `timeoutMs` is `NaN`
(`none`) the JavaScript comparison is false. -/
def timeoutExceeded (elapsed : Int) (timeoutMs : Option Int) : Bool :=
  match timeoutMs with
  | none => false
  | some t => decide (t < elapsed)

/-- Lines 32-75: the `while (true)` polling loop. Each iteration issues one
`GetCrawler` call; on state `'READY'` it sets the `state` output, runs the
metrics step and breaks; otherwise it throws the timeout error when the
elapsed check trips, else sleeps and repeats. `fuel` bounds the iterations
modelled; `none` means the loop is still running after `fuel` iterations. -/
def pollLoop (env : Env) (tm timeoutMs : Option Int) :
    Nat → Nat → Outputs → Calls → Option (Except JsError Outputs × Calls)
  | _, 0, _, _ => none
  | i, fuel + 1, out, calls =>
    let calls1 := { calls with statusCalls := calls.statusCalls + 1 }
    match env.statusResult i with
    | Except.error e => some (Except.error e, calls1)
    | Except.ok st =>
      if st = some ("READY") then
        let p := setMetricOutputs env { out with state := st } calls1
        some (Except.ok p.1, p.2)
      else if timeoutExceeded (env.elapsedAt i) timeoutMs then
        some (Except.error (timeoutErrorOf tm), calls1)
      else
        pollLoop env tm timeoutMs (i + 1) fuel out calls1

/-- Lines 80-87: the top-level catch: `core.setFailed` with the error's message
when the thrown value is an `Error` instance, else with the fixed string, then
`core.setOutput('success', 'false')`. -/
def catchHandler (e : JsError) (out : Outputs) (calls : Calls) : RunResult :=
  { outputs := { out with success := some ("false") },
    calls := calls,
    failed := some (if e.isError then e.message else ("Unknown error occurred")) }

/-- The `run` function of `src/index.ts`, as a function of the raw inputs and
the environment of remote-call results. `core.getInput('crawler-name',
\x7brequired: true\x7d)` throws when the raw value is empty, before any remote
call; then one `StartCrawler` call; `setOutput('success', 'true')`; then either
the polling loop or the synthetic `'RUNNING'` state output. -/
def run (inp : Inputs) (env : Env) (fuel : Nat) : Option RunResult :=
  if inp.crawlerName = "" then
    some (catchHandler
      { isError := true, message := "Input required and not supplied: crawler-name" }
      Outputs.empty Calls.zero)
  else
    let wait := waitForCompletionOf inp.waitForCompletion
    let tm := timeoutMinutesOf inp.timeoutMinutes
    let calls1 : Calls := { startCalls := 1, statusCalls := 0, metricsCalls := 0 }
    match env.startResult with
    | Except.error e => some (catchHandler e Outputs.empty calls1)
    | Except.ok _ =>
      let out1 : Outputs := { Outputs.empty with success := some ("true") }
      if wait then
        match pollLoop env tm (tm.map (fun t => t * 60 * 1000)) 0 fuel out1 calls1 with
        | none => none
        | some (Except.error e, calls2) => some (catchHandler e out1 calls2)
        | some (Except.ok out2, calls2) =>
          some { outputs := out2, calls := calls2, failed := none }
      else
        some { outputs := { out1 with state := some ("RUNNING") }, calls := calls1,
               failed := none }

/-! ## Concrete environments and results used to instantiate the theorems -/

/-- Every call succeeds; the first poll already reports `READY`; metrics list
has one entry with `TablesDeleted` absent. -/
def envReady : Env :=
  { startResult := Except.ok (),
    statusResult := fun _ => Except.ok (some ("READY")),
    metricsResult := Except.ok (some ⟨some 3, some 1, none⟩),
    elapsedAt := fun _ => 0 }

/-- The crawler never leaves `RUNNING`; the clock reads far past any bound. -/
def envTimeoutNow : Env :=
  { startResult := Except.ok (),
    statusResult := fun _ => Except.ok (some ("RUNNING")),
    metricsResult := Except.ok none,
    elapsedAt := fun _ => 10000000 }

/-- First poll reports `READY` but the metrics call is rejected. -/
def envMetricsFail : Env :=
  { startResult := Except.ok (),
    statusResult := fun _ => Except.ok (some ("READY")),
    metricsResult := Except.error ⟨true, "metrics unavailable"⟩,
    elapsedAt := fun _ => 0 }

/-- The start call is rejected with an `Error` instance. -/
def envStartFail : Env :=
  { startResult := Except.error ⟨true, "AccessDenied"⟩,
    statusResult := fun _ => Except.ok (some ("READY")),
    metricsResult := Except.ok none,
    elapsedAt := fun _ => 0 }

/-- The start call rejects with a non-`Error` thrown value. -/
def envStartThrow : Env :=
  { startResult := Except.error ⟨false, "a thrown string"⟩,
    statusResult := fun _ => Except.ok (some ("READY")),
    metricsResult := Except.ok none,
    elapsedAt := fun _ => 0 }

/-- The outputs as they stand when the loop observes `READY` on the first
poll, right before the metrics step. -/
def outReadyFirst : Outputs :=
  ⟨some ("true"), some ("READY"), none, none, none⟩

/-- The outputs as they stand on entry to the polling loop. -/
def outEntry : Outputs :=
  ⟨some ("true"), none, none, none, none⟩

/-- Outcome of `run ⟨"my-crawler", "true", ""⟩ envMetricsFail 1`. -/
def rMetricsFail : RunResult :=
  ⟨⟨some ("true"), some ("READY"), some ("0"), some ("0"), some ("0")⟩, ⟨1, 1, 1⟩, none⟩

/-- Outcome of `run ⟨"my-crawler", "true", ""⟩ envReady 1`. -/
def rReady : RunResult :=
  ⟨⟨some ("true"), some ("READY"), some ("3"), some ("1"), some ("0")⟩, ⟨1, 1, 1⟩, none⟩

/-- Outcome of `run ⟨"my-crawler", "true", ""⟩ envStartFail 1`. -/
def rStartFail : RunResult :=
  ⟨⟨some ("false"), none, none, none, none⟩, ⟨1, 0, 0⟩, some ("AccessDenied")⟩

/-! ## Helper lemmas about the metrics step and the polling loop -/

theorem setMetricOutputs_calls (env : Env) (out : Outputs) (calls : Calls) :
    (setMetricOutputs env out calls).2 =
      { calls with metricsCalls := calls.metricsCalls + 1 } := by
  unfold setMetricOutputs
  cases env.metricsResult <;> rfl

theorem setMetricOutputs_success (env : Env) (out : Outputs) (calls : Calls) :
    (setMetricOutputs env out calls).1.success = out.success := by
  unfold setMetricOutputs
  cases env.metricsResult <;> rfl

theorem setMetricOutputs_state (env : Env) (out : Outputs) (calls : Calls) :
    (setMetricOutputs env out calls).1.state = out.state := by
  unfold setMetricOutputs
  cases env.metricsResult <;> rfl

theorem setMetricOutputs_metricsFail (env : Env) (out : Outputs) (calls : Calls)
    (e : JsError) (h : env.metricsResult = Except.error e) :
    (setMetricOutputs env out calls).1 =
      { out with tablesCreated := some ("0"), tablesUpdated := some ("0"),
                 tablesDeleted := some ("0") } := by
  unfold setMetricOutputs
  rw [h]

/-- The polling loop never issues a start call. -/
theorem pollLoop_startCalls (env : Env) (tm tMs : Option Int) :
    ∀ (fuel i : Nat) (out : Outputs) (calls : Calls) (res : Except JsError Outputs)
      (calls' : Calls),
      pollLoop env tm tMs i fuel out calls = some (res, calls') →
      calls'.startCalls = calls.startCalls := by
  intro fuel
  induction fuel with
  | zero => intro i out calls res calls' h; simp [pollLoop] at h
  | succ n ih =>
    intro i out calls res calls' h
    simp only [pollLoop] at h
    split at h
    · simp only [Option.some.injEq, Prod.mk.injEq] at h
      obtain ⟨-, rfl⟩ := h
      rfl
    · split at h
      · simp only [Option.some.injEq, Prod.mk.injEq] at h
        obtain ⟨-, rfl⟩ := h
        rw [setMetricOutputs_calls]
      · split at h
        · simp only [Option.some.injEq, Prod.mk.injEq] at h
          obtain ⟨-, rfl⟩ := h
          rfl
        · exact ih (i + 1) out
            { calls with statusCalls := calls.statusCalls + 1 } res calls' h

/-- If poll `i + k` would report `READY`, the loop issues at most `k + 1`
further status calls: the first `READY` sighting ends the loop. -/
theorem pollLoop_statusCalls_of_ready (env : Env) (tm tMs : Option Int) :
    ∀ (k fuel i : Nat) (out : Outputs) (calls : Calls) (res : Except JsError Outputs)
      (calls' : Calls),
      env.statusResult (i + k) = Except.ok (some ("READY")) →
      pollLoop env tm tMs i fuel out calls = some (res, calls') →
      calls'.statusCalls ≤ calls.statusCalls + (k + 1) := by
  intro k
  induction k with
  | zero =>
    intro fuel i out calls res calls' hk h
    rw [Nat.add_zero] at hk
    cases fuel with
    | zero => simp [pollLoop] at h
    | succ n =>
      simp only [pollLoop, hk, if_true] at h
      simp only [Option.some.injEq, Prod.mk.injEq] at h
      obtain ⟨-, rfl⟩ := h
      rw [setMetricOutputs_calls]
  | succ k ih =>
    intro fuel i out calls res calls' hk h
    cases fuel with
    | zero => simp [pollLoop] at h
    | succ n =>
      simp only [pollLoop] at h
      split at h
      · simp only [Option.some.injEq, Prod.mk.injEq] at h
        obtain ⟨-, rfl⟩ := h
        dsimp only
        omega
      · split at h
        · simp only [Option.some.injEq, Prod.mk.injEq] at h
          obtain ⟨-, rfl⟩ := h
          rw [setMetricOutputs_calls]
          dsimp only
          omega
        · split at h
          · simp only [Option.some.injEq, Prod.mk.injEq] at h
            obtain ⟨-, rfl⟩ := h
            dsimp only
            omega
          · have hk' : env.statusResult (i + 1 + k) = Except.ok (some ("READY")) := by
              rw [show i + 1 + k = i + (k + 1) by omega]
              exact hk
            have := ih n (i + 1) out
              { calls with statusCalls := calls.statusCalls + 1 } res calls' hk' h
            dsimp only at this
            omega

/-- If the loop exits with a successful payload while the metrics call is
rejected, the payload is the entry outputs with `state = READY` and all three
table outputs set to the default `'0'`. -/
theorem pollLoop_ok_of_metricsFail (env : Env) (tm tMs : Option Int) (e : JsError)
    (hm : env.metricsResult = Except.error e) :
    ∀ (fuel i : Nat) (out : Outputs) (calls : Calls) (out' : Outputs) (calls' : Calls),
      pollLoop env tm tMs i fuel out calls = some (Except.ok out', calls') →
      out' = { out with state := some ("READY"), tablesCreated := some ("0"),
                        tablesUpdated := some ("0"), tablesDeleted := some ("0") } := by
  intro fuel
  induction fuel with
  | zero => intro i out calls out' calls' h; simp [pollLoop] at h
  | succ n ih =>
    intro i out calls out' calls' h
    simp only [pollLoop] at h
    split at h
    · simp at h
    · rename_i st _
      split at h
      · rename_i hready
        simp only [Option.some.injEq, Prod.mk.injEq, Except.ok.injEq] at h
        obtain ⟨h1, -⟩ := h
        rw [← h1, setMetricOutputs_metricsFail env _ _ e hm, hready]
      · split at h
        · simp at h
        · exact ih (i + 1) out _ out' calls' h

/-- A successful loop exit leaves `success` untouched and has set the `state`
output to `READY`. -/
theorem pollLoop_ok_fields (env : Env) (tm tMs : Option Int) :
    ∀ (fuel i : Nat) (out : Outputs) (calls : Calls) (out' : Outputs) (calls' : Calls),
      pollLoop env tm tMs i fuel out calls = some (Except.ok out', calls') →
      out'.success = out.success ∧ out'.state = some ("READY") := by
  intro fuel
  induction fuel with
  | zero => intro i out calls out' calls' h; simp [pollLoop] at h
  | succ n ih =>
    intro i out calls out' calls' h
    simp only [pollLoop] at h
    split at h
    · simp at h
    · rename_i st _
      split at h
      · rename_i hready
        simp only [Option.some.injEq, Prod.mk.injEq, Except.ok.injEq] at h
        obtain ⟨h1, -⟩ := h
        rw [← h1]
        refine ⟨?_, ?_⟩
        · rw [setMetricOutputs_success]
        · rw [setMetricOutputs_state, hready]
      · split at h
        · simp at h
        · exact ih (i + 1) out _ out' calls' h

/-- With `timeoutMs = NaN` (`none`) the timeout branch is unreachable: if every
status call succeeds with a non-`READY` state, the loop never exits. -/
theorem pollLoop_none_of_nan (env : Env) (tm : Option Int)
    (hst : ∀ j, ∃ st, env.statusResult j = Except.ok st ∧ st ≠ some ("READY")) :
    ∀ (fuel i : Nat) (out : Outputs) (calls : Calls),
      pollLoop env tm none i fuel out calls = none := by
  intro fuel
  induction fuel with
  | zero => intro i out calls; rfl
  | succ n ih =>
    intro i out calls
    obtain ⟨st, hok, hne⟩ := hst i
    simp only [pollLoop, hok]
    rw [if_neg hne]
    have ht : timeoutExceeded (env.elapsedAt i) none = false := rfl
    rw [ht, if_neg Bool.false_ne_true]
    exact ih (i + 1) out _

/-- With `timeoutMs = NaN` (`none`), the only loop failure is a rejected status
call: the synthetic timeout error is never produced. -/
theorem pollLoop_error_of_nan (env : Env) (tm : Option Int) :
    ∀ (fuel i : Nat) (out : Outputs) (calls : Calls) (e : JsError) (calls' : Calls),
      pollLoop env tm none i fuel out calls = some (Except.error e, calls') →
      ∃ j, env.statusResult j = Except.error e := by
  intro fuel
  induction fuel with
  | zero => intro i out calls e calls' h; simp [pollLoop] at h
  | succ n ih =>
    intro i out calls e calls' h
    simp only [pollLoop] at h
    split at h
    · rename_i e' heq
      simp only [Option.some.injEq, Prod.mk.injEq, Except.error.injEq] at h
      obtain ⟨rfl, -⟩ := h
      exact ⟨i, heq⟩
    · split at h
      · simp at h
      · split at h
        · rename_i hto
          simp [timeoutExceeded] at hto
        · exact ih (i + 1) out _ e calls' h

/-- If every status call through iteration `i + k` succeeds with a non-`READY`
state and the elapsed check trips by iteration `i + k`, the loop exits with the
timeout error without any metrics call. -/
theorem pollLoop_timeout (env : Env) (tm tMs : Option Int) :
    ∀ (k fuel i : Nat) (out : Outputs) (calls : Calls),
      (∀ j, j ≤ k → ∃ st, env.statusResult (i + j) = Except.ok st ∧ st ≠ some ("READY")) →
      timeoutExceeded (env.elapsedAt (i + k)) tMs = true →
      k < fuel →
      ∃ calls', pollLoop env tm tMs i fuel out calls =
          some (Except.error (timeoutErrorOf tm), calls') ∧
        calls'.metricsCalls = calls.metricsCalls := by
  intro k
  induction k with
  | zero =>
    intro fuel i out calls hst hex hfuel
    obtain ⟨st, hok, hne⟩ := hst 0 (Nat.le_refl 0)
    rw [Nat.add_zero] at hok hex
    cases fuel with
    | zero => omega
    | succ n =>
      refine ⟨{ calls with statusCalls := calls.statusCalls + 1 }, ?_, rfl⟩
      simp only [pollLoop, hok]
      rw [if_neg hne, if_pos hex]
  | succ k ih =>
    intro fuel i out calls hst hex hfuel
    cases fuel with
    | zero => omega
    | succ n =>
      obtain ⟨st, hok, hne⟩ := hst 0 (Nat.zero_le _)
      rw [Nat.add_zero] at hok
      by_cases hto : timeoutExceeded (env.elapsedAt i) tMs = true
      · refine ⟨{ calls with statusCalls := calls.statusCalls + 1 }, ?_, rfl⟩
        simp only [pollLoop, hok]
        rw [if_neg hne, if_pos hto]
      · obtain ⟨calls', hp, hm⟩ := ih n (i + 1) out
          { calls with statusCalls := calls.statusCalls + 1 }
          (fun j hj => by
            obtain ⟨st', h1, h2⟩ := hst (j + 1) (by omega)
            exact ⟨st', by rw [show i + 1 + j = i + (j + 1) by omega]; exact h1, h2⟩)
          (by rw [show i + 1 + k = i + (k + 1) by omega]; exact hex)
          (by omega)
        refine ⟨calls', ?_, by rw [hm]⟩
        simp only [pollLoop, hok]
        rw [if_neg hne, if_neg hto]
        exact hp

/-! ## Unfoldings of `run` on its four top-level paths -/

/-- Missing `crawler-name`: `getInput` throws before any remote call and the
catch reports the configuration error. -/
theorem run_config_error (inp : Inputs) (env : Env) (fuel : Nat)
    (h : inp.crawlerName = "") :
    run inp env fuel =
      some { outputs := { success := some ("false"), state := none, tablesCreated := none,
                          tablesUpdated := none, tablesDeleted := none },
             calls := ⟨0, 0, 0⟩,
             failed := some ("Input required and not supplied: crawler-name") } := by
  unfold run
  rw [if_pos h]
  rfl

/-- A rejected start call reaches the catch with no output emitted yet. -/
theorem run_start_error (inp : Inputs) (env : Env) (fuel : Nat) (e : JsError)
    (hname : inp.crawlerName ≠ "") (hstart : env.startResult = Except.error e) :
    run inp env fuel =
      some { outputs := { success := some ("false"), state := none, tablesCreated := none,
                          tablesUpdated := none, tablesDeleted := none },
             calls := ⟨1, 0, 0⟩,
             failed := some (if e.isError then e.message else ("Unknown error occurred")) } := by
  unfold run
  rw [if_neg hname, hstart]
  rfl

/-- With `wait-for-completion` parsed false, success is reported immediately with
the synthetic `'RUNNING'` state and no status or metrics call. -/
theorem run_nowait (inp : Inputs) (env : Env) (fuel : Nat)
    (hname : inp.crawlerName ≠ "") (hstart : env.startResult = Except.ok ())
    (hwait : waitForCompletionOf inp.waitForCompletion = false) :
    run inp env fuel =
      some { outputs := { success := some ("true"), state := some ("RUNNING"), tablesCreated := none,
                          tablesUpdated := none, tablesDeleted := none },
             calls := ⟨1, 0, 0⟩, failed := none } := by
  unfold run
  rw [if_neg hname, hstart]
  simp only [hwait]
  rfl

/-- With `wait-for-completion` parsed true, the outcome is the polling loop's,
entered with `success = 'true'` already output and one start call issued. -/
theorem run_wait (inp : Inputs) (env : Env) (fuel : Nat)
    (hname : inp.crawlerName ≠ "") (hstart : env.startResult = Except.ok ())
    (hwait : waitForCompletionOf inp.waitForCompletion = true) :
    run inp env fuel =
      match pollLoop env (timeoutMinutesOf inp.timeoutMinutes)
          ((timeoutMinutesOf inp.timeoutMinutes).map (fun t => t * 60 * 1000)) 0 fuel
          { success := some ("true"), state := none, tablesCreated := none,
            tablesUpdated := none, tablesDeleted := none }
          ⟨1, 0, 0⟩ with
      | none => none
      | some (Except.error e, calls2) =>
          some (catchHandler e
            { success := some ("true"), state := none, tablesCreated := none,
              tablesUpdated := none, tablesDeleted := none } calls2)
      | some (Except.ok out2, calls2) =>
          some { outputs := out2, calls := calls2, failed := none } := by
  unfold run
  rw [if_neg hname, hstart]
  simp only [hwait]
  rfl

/-! ## Helper lemmas about `parseIntJS` -/

/-- A decimal digit is not whitespace and is neither sign character. -/
theorem isDigit_props (c : Char) (h : c.isDigit = true) :
    c.isWhitespace = false ∧ c ≠ '-' ∧ c ≠ '+' := by
  simp only [Char.isDigit, Bool.and_eq_true, decide_eq_true_eq] at h
  refine ⟨?_, ?_, ?_⟩
  · simp only [Char.isWhitespace, Bool.or_eq_false_iff, decide_eq_false_iff_not]
    refine ⟨⟨⟨?_, ?_⟩, ?_⟩, ?_⟩ <;> (rintro rfl; exact absurd h (by decide))
  · rintro rfl; exact absurd h (by decide)
  · rintro rfl; exact absurd h (by decide)

theorem takeWhile_eq_self_of_all {p : Char → Bool} :
    ∀ (l : List Char), (∀ c ∈ l, p c = true) → l.takeWhile p = l
  | [], _ => rfl
  | a :: t, h => by
    rw [List.takeWhile_cons_of_pos (h a (List.mem_cons_self a t)),
      takeWhile_eq_self_of_all t (fun c hc => h c (List.mem_cons_of_mem a hc))]

/-- Any nonempty string of decimal digits parses as its base-10 value. -/
theorem parseIntJS_digits :
    ∀ (ds : List Char), ds ≠ [] → (∀ c ∈ ds, c.isDigit = true) →
      parseIntJS (String.mk ds) = some ((digitsVal ds : Nat) : Int) := by
  intro ds hne hd
  cases ds with
  | nil => exact absurd rfl hne
  | cons c rest =>
    obtain ⟨hw, hdash, hplus⟩ := isDigit_props c (hd c (List.mem_cons_self c rest))
    unfold parseIntJS
    have h1 : (String.mk (c :: rest)).toList = c :: rest := rfl
    rw [h1, List.dropWhile_cons_of_neg (by simp [hw])]
    dsimp only
    rw [if_neg hdash, if_neg hplus, takeWhile_eq_self_of_all (c :: rest) hd,
      if_neg (List.cons_ne_nil c rest)]

/-! ## Claim theorems -/

/-- C1 counterexample: with `wait-for-completion` equal to `"false"` and a
successful start call, the code emits no metric outputs at all (they are left
unset, not set to `"0"` as the claim states), and the synthetic state output is
`"RUNNING"`, not `"running"`. -/
theorem c1_counterexample :
    (run ⟨"my-crawler", "false", ""⟩ envReady 1).map
      (fun r => (r.outputs.tablesCreated, r.outputs.tablesUpdated,
        r.outputs.tablesDeleted, r.outputs.state)) =
      some (none, none, none, some ("RUNNING")) := by
  decide

/-- C1 (amended): for every config with `waitForCompletion` parsed false, once
the start call succeeds, Execute returns immediately with success `"true"`, the
synthetic state `"RUNNING"`, the three metric outputs left unset, and issues no
status call and no metrics call. -/
theorem c1_nowait_immediate (inp : Inputs) (env : Env) (fuel : Nat)
    (hname : inp.crawlerName ≠ "")
    (hwait : waitForCompletionOf inp.waitForCompletion = false)
    (hstart : env.startResult = Except.ok ()) :
    run inp env fuel =
      some { outputs := { success := some ("true"), state := some ("RUNNING"),
                          tablesCreated := none, tablesUpdated := none,
                          tablesDeleted := none },
             calls := ⟨1, 0, 0⟩, failed := none } :=
  run_nowait inp env fuel hname hstart hwait

theorem c1_nowait_immediate_witness :
    run ⟨"my-crawler", "false", ""⟩ envReady 1 =
      some { outputs := { success := some ("true"), state := some ("RUNNING"),
                          tablesCreated := none, tablesUpdated := none,
                          tablesDeleted := none },
             calls := ⟨1, 0, 0⟩, failed := none } :=
  c1_nowait_immediate ⟨"my-crawler", "false", ""⟩ envReady 1 (by decide) (by decide) rfl

/-- C4: a missing (empty) `crawler-name` input fails as a configuration error
before any remote call: no start, status or metrics call is issued. -/
theorem c4_config_error_no_calls (inp : Inputs) (env : Env) (fuel : Nat)
    (h : inp.crawlerName = "") :
    ∃ r, run inp env fuel = some r ∧ r.failed ≠ none ∧
      r.outputs.success = some ("false") ∧
      r.calls.startCalls = 0 ∧ r.calls.statusCalls = 0 ∧ r.calls.metricsCalls = 0 := by
  refine ⟨_, run_config_error inp env fuel h, ?_, rfl, rfl, rfl, rfl⟩
  simp

theorem c4_config_error_no_calls_witness :
    ∃ r, run ⟨"", "true", ""⟩ envReady 1 = some r ∧ r.failed ≠ none ∧
      r.outputs.success = some ("false") ∧
      r.calls.startCalls = 0 ∧ r.calls.statusCalls = 0 ∧ r.calls.metricsCalls = 0 :=
  c4_config_error_no_calls ⟨"", "true", ""⟩ envReady 1 rfl

/-- C5: with `waitForCompletion` parsed true and the very first status call
reporting `READY`, Execute issues exactly one status call and exactly one
metrics call and returns success. -/
theorem c5_first_poll_ready (inp : Inputs) (env : Env) (fuel : Nat)
    (hname : inp.crawlerName ≠ "")
    (hwait : waitForCompletionOf inp.waitForCompletion = true)
    (hstart : env.startResult = Except.ok ())
    (h0 : env.statusResult 0 = Except.ok (some ("READY")))
    (hfuel : 0 < fuel) :
    ∃ r, run inp env fuel = some r ∧ r.calls.statusCalls = 1 ∧
      r.calls.metricsCalls = 1 ∧ r.calls.startCalls = 1 ∧
      r.failed = none ∧ r.outputs.success = some ("true") := by
  cases fuel with
  | zero => omega
  | succ n =>
    refine ⟨⟨(setMetricOutputs env outReadyFirst ⟨1, 1, 0⟩).1,
      (setMetricOutputs env outReadyFirst ⟨1, 1, 0⟩).2, none⟩, ?_, ?_, ?_, ?_, rfl, ?_⟩
    · rw [run_wait inp env (n + 1) hname hstart hwait]
      simp only [pollLoop, h0]
      rfl
    · rw [setMetricOutputs_calls]
    · rw [setMetricOutputs_calls]
    · rw [setMetricOutputs_calls]
    · rw [setMetricOutputs_success]
      rfl

theorem c5_first_poll_ready_witness :
    ∃ r, run ⟨"my-crawler", "true", ""⟩ envReady 1 = some r ∧ r.calls.statusCalls = 1 ∧
      r.calls.metricsCalls = 1 ∧ r.calls.startCalls = 1 ∧
      r.failed = none ∧ r.outputs.success = some ("true") :=
  c5_first_poll_ready ⟨"my-crawler", "true", ""⟩ envReady 1 (by decide) (by decide)
    rfl rfl (by decide)

/-- C2: with `waitForCompletion` parsed true and a configured timeout of `t`
minutes, if every status call through poll `k` succeeds without reporting
`READY` while the elapsed time at poll `k` exceeds `t * 60 * 1000`
milliseconds, Execute fails with the timeout message naming `t`, and no
metrics call is issued. -/
theorem c2_timeout (inp : Inputs) (env : Env) (fuel k : Nat) (t : Int)
    (hname : inp.crawlerName ≠ "")
    (hwait : waitForCompletionOf inp.waitForCompletion = true)
    (htm : timeoutMinutesOf inp.timeoutMinutes = some t)
    (hstart : env.startResult = Except.ok ())
    (hst : ∀ j, j ≤ k → ∃ st, env.statusResult j = Except.ok st ∧ st ≠ some ("READY"))
    (hex : t * 60 * 1000 < env.elapsedAt k)
    (hfuel : k < fuel) :
    ∃ r, run inp env fuel = some r ∧
      r.failed = some ("Crawler did not complete within " ++ toString t ++ " minutes") ∧
      r.calls.metricsCalls = 0 ∧
      r.outputs.success = some ("false") := by
  have htMs : (timeoutMinutesOf inp.timeoutMinutes).map (fun x => x * 60 * 1000) =
      some (t * 60 * 1000) := by rw [htm]; rfl
  have hex' : timeoutExceeded (env.elapsedAt (0 + k))
      ((timeoutMinutesOf inp.timeoutMinutes).map (fun t => t * 60 * 1000)) = true := by
    rw [htMs]
    simp only [timeoutExceeded, Nat.zero_add, decide_eq_true_eq]
    exact hex
  have hst' : ∀ j, j ≤ k → ∃ st, env.statusResult (0 + j) = Except.ok st ∧
      st ≠ some ("READY") := by
    intro j hj
    rw [Nat.zero_add]
    exact hst j hj
  obtain ⟨calls', hp, hm⟩ := pollLoop_timeout env (timeoutMinutesOf inp.timeoutMinutes)
    ((timeoutMinutesOf inp.timeoutMinutes).map (fun t => t * 60 * 1000)) k fuel 0
    ⟨some ("true"), none, none, none, none⟩ ⟨1, 0, 0⟩ hst' hex' hfuel
  refine ⟨catchHandler (timeoutErrorOf (timeoutMinutesOf inp.timeoutMinutes))
    ⟨some ("true"), none, none, none, none⟩ calls', ?_, ?_, ?_, rfl⟩
  · rw [run_wait inp env fuel hname hstart hwait, hp]
  · simp [catchHandler, timeoutErrorOf, htm, jsNumToString]
  · exact hm

theorem c2_timeout_witness :
    ∃ r, run ⟨"my-crawler", "true", "1"⟩ envTimeoutNow 1 = some r ∧
      r.failed = some ("Crawler did not complete within " ++ toString (1 : Int) ++
        " minutes") ∧
      r.calls.metricsCalls = 0 ∧
      r.outputs.success = some ("false") :=
  c2_timeout ⟨"my-crawler", "true", "1"⟩ envTimeoutNow 1 0 1 (by decide) (by decide)
    (by decide) rfl (fun j hj => ⟨some ("RUNNING"), rfl, by decide⟩) (by decide) (by decide)

/-- C3: for every execution that reaches the terminal `READY` state, if the
metrics call fails the failure is not propagated: Execute still reports
success `"true"`, all three metric outputs are `"0"`, and no failure signal
is raised. -/
theorem c3_metrics_swallowed (inp : Inputs) (env : Env) (fuel : Nat) (r : RunResult)
    (e : JsError) (hm : env.metricsResult = Except.error e)
    (hr : run inp env fuel = some r) (hready : r.outputs.state = some ("READY")) :
    r.outputs.success = some ("true") ∧
    r.outputs.tablesCreated = some ("0") ∧
    r.outputs.tablesUpdated = some ("0") ∧
    r.outputs.tablesDeleted = some ("0") ∧
    r.failed = none := by
  by_cases hname : inp.crawlerName = ""
  · rw [run_config_error inp env fuel hname] at hr
    simp only [Option.some.injEq] at hr
    subst hr
    simp at hready
  · cases hstart : env.startResult with
    | error e' =>
      rw [run_start_error inp env fuel e' hname hstart] at hr
      simp only [Option.some.injEq] at hr
      subst hr
      simp at hready
    | ok u =>
      cases u
      cases hwait : waitForCompletionOf inp.waitForCompletion with
      | false =>
        rw [run_nowait inp env fuel hname hstart hwait] at hr
        simp only [Option.some.injEq] at hr
        subst hr
        simp at hready
      | true =>
        rw [run_wait inp env fuel hname hstart hwait] at hr
        cases hp : pollLoop env (timeoutMinutesOf inp.timeoutMinutes)
            ((timeoutMinutesOf inp.timeoutMinutes).map (fun t => t * 60 * 1000)) 0 fuel
            ⟨some ("true"), none, none, none, none⟩ ⟨1, 0, 0⟩ with
        | none =>
          rw [hp] at hr
          simp at hr
        | some p =>
          obtain ⟨res, calls2⟩ := p
          cases res with
          | error e2 =>
            rw [hp] at hr
            simp only [Option.some.injEq] at hr
            subst hr
            simp [catchHandler] at hready
          | ok out2 =>
            rw [hp] at hr
            simp only [Option.some.injEq] at hr
            subst hr
            have h2 := pollLoop_ok_of_metricsFail env
              (timeoutMinutesOf inp.timeoutMinutes)
              ((timeoutMinutesOf inp.timeoutMinutes).map (fun t => t * 60 * 1000))
              e hm fuel 0 ⟨some ("true"), none, none, none, none⟩ ⟨1, 0, 0⟩ out2 calls2 hp
            subst h2
            exact ⟨rfl, rfl, rfl, rfl, rfl⟩

theorem c3_metrics_swallowed_witness :
    rMetricsFail.outputs.success = some ("true") ∧
    rMetricsFail.outputs.tablesCreated = some ("0") ∧
    rMetricsFail.outputs.tablesUpdated = some ("0") ∧
    rMetricsFail.outputs.tablesDeleted = some ("0") ∧
    rMetricsFail.failed = none :=
  c3_metrics_swallowed ⟨"my-crawler", "true", ""⟩ envMetricsFail 1 rMetricsFail
    ⟨true, "metrics unavailable"⟩ rfl (by decide) rfl

/-- C6 counterexample: an invocation whose `crawler-name` input is missing
still completes (reporting the configuration failure) but issues zero start
calls, refuting "exactly one start call for every invocation". -/
theorem c6_counterexample :
    (run ⟨"", "true", ""⟩ envTimeoutNow 1).map (fun r => r.calls.startCalls) =
      some 0 := by
  decide

/-- C6 (amended): every invocation that passes input validation issues exactly
one start call (an invocation failing validation issues none), and the first
`READY` observation wins: if poll `k` reports `READY` then at most `k + 1`
status calls are ever issued, so later observations are never consulted. -/
theorem c6_one_start_first_ready (inp : Inputs) (env : Env) (fuel : Nat)
    (r : RunResult) (hr : run inp env fuel = some r) :
    (inp.crawlerName ≠ "" → r.calls.startCalls = 1) ∧
    (inp.crawlerName = "" → r.calls.startCalls = 0) ∧
    (∀ k, env.statusResult k = Except.ok (some ("READY")) →
      r.calls.statusCalls ≤ k + 1) := by
  by_cases hname : inp.crawlerName = ""
  · rw [run_config_error inp env fuel hname] at hr
    simp only [Option.some.injEq] at hr
    subst hr
    exact ⟨fun hn => absurd hname hn, fun _ => rfl, fun k _ => Nat.zero_le (k + 1)⟩
  · cases hstart : env.startResult with
    | error e' =>
      rw [run_start_error inp env fuel e' hname hstart] at hr
      simp only [Option.some.injEq] at hr
      subst hr
      exact ⟨fun _ => rfl, fun h => absurd h hname, fun k _ => Nat.zero_le (k + 1)⟩
    | ok u =>
      cases u
      cases hwait : waitForCompletionOf inp.waitForCompletion with
      | false =>
        rw [run_nowait inp env fuel hname hstart hwait] at hr
        simp only [Option.some.injEq] at hr
        subst hr
        exact ⟨fun _ => rfl, fun h => absurd h hname, fun k _ => Nat.zero_le (k + 1)⟩
      | true =>
        rw [run_wait inp env fuel hname hstart hwait] at hr
        cases hp : pollLoop env (timeoutMinutesOf inp.timeoutMinutes)
            ((timeoutMinutesOf inp.timeoutMinutes).map (fun t => t * 60 * 1000)) 0 fuel
            ⟨some ("true"), none, none, none, none⟩ ⟨1, 0, 0⟩ with
        | none => rw [hp] at hr; simp at hr
        | some p =>
          obtain ⟨res, calls2⟩ := p
          have hstartc := pollLoop_startCalls env _ _ fuel 0
            ⟨some ("true"), none, none, none, none⟩ ⟨1, 0, 0⟩ res calls2 hp
          have hstatc : ∀ k, env.statusResult k = Except.ok (some ("READY")) →
              calls2.statusCalls ≤ k + 1 := by
            intro k hk
            have := pollLoop_statusCalls_of_ready env _ _ k fuel 0
              ⟨some ("true"), none, none, none, none⟩ ⟨1, 0, 0⟩ res calls2
              (by rw [Nat.zero_add]; exact hk) hp
            dsimp only at this
            omega
          cases res with
          | error e2 =>
            rw [hp] at hr
            simp only [Option.some.injEq] at hr
            subst hr
            exact ⟨fun _ => hstartc, fun h => absurd h hname, hstatc⟩
          | ok out2 =>
            rw [hp] at hr
            simp only [Option.some.injEq] at hr
            subst hr
            exact ⟨fun _ => hstartc, fun h => absurd h hname, hstatc⟩

theorem c6_one_start_first_ready_witness :
    rReady.calls.startCalls = 1 ∧ rReady.calls.statusCalls ≤ 0 + 1 :=
  ⟨(c6_one_start_first_ready ⟨"my-crawler", "true", ""⟩ envReady 1 rReady
      (by decide)).1 (by decide),
    (c6_one_start_first_ready ⟨"my-crawler", "true", ""⟩ envReady 1 rReady
      (by decide)).2.2 0 rfl⟩

/-- C7: every uncaught failure — configuration error, start rejection, status
rejection or timeout — produces success `"false"` and a failure signal, with
the state and all three metric outputs left unset; in particular a rejected
start call's `Error` message is carried verbatim as the failure message. -/
theorem c7_failure_shape (inp : Inputs) (env : Env) (fuel : Nat) (r : RunResult)
    (msg : String) (hr : run inp env fuel = some r) (hf : r.failed = some msg) :
    r.outputs.success = some ("false") ∧
    r.outputs.state = none ∧
    r.outputs.tablesCreated = none ∧
    r.outputs.tablesUpdated = none ∧
    r.outputs.tablesDeleted = none ∧
    (∀ e, inp.crawlerName ≠ "" → env.startResult = Except.error e →
      e.isError = true → msg = e.message) := by
  by_cases hname : inp.crawlerName = ""
  · rw [run_config_error inp env fuel hname] at hr
    simp only [Option.some.injEq] at hr
    subst hr
    exact ⟨rfl, rfl, rfl, rfl, rfl, fun e hn _ _ => absurd hname hn⟩
  · cases hstart : env.startResult with
    | error e' =>
      rw [run_start_error inp env fuel e' hname hstart] at hr
      simp only [Option.some.injEq] at hr
      subst hr
      refine ⟨rfl, rfl, rfl, rfl, rfl, ?_⟩
      intro e hn hs hi
      injection hs with hs
      subst hs
      simp only [hi] at hf
      simp at hf
      exact hf.symm
    | ok u =>
      cases u
      cases hwait : waitForCompletionOf inp.waitForCompletion with
      | false =>
        rw [run_nowait inp env fuel hname hstart hwait] at hr
        simp only [Option.some.injEq] at hr
        subst hr
        simp at hf
      | true =>
        rw [run_wait inp env fuel hname hstart hwait] at hr
        cases hp : pollLoop env (timeoutMinutesOf inp.timeoutMinutes)
            ((timeoutMinutesOf inp.timeoutMinutes).map (fun t => t * 60 * 1000)) 0 fuel
            ⟨some ("true"), none, none, none, none⟩ ⟨1, 0, 0⟩ with
        | none => rw [hp] at hr; simp at hr
        | some p =>
          obtain ⟨res, calls2⟩ := p
          cases res with
          | ok out2 =>
            rw [hp] at hr
            simp only [Option.some.injEq] at hr
            subst hr
            simp at hf
          | error e2 =>
            rw [hp] at hr
            simp only [Option.some.injEq] at hr
            subst hr
            refine ⟨rfl, rfl, rfl, rfl, rfl, ?_⟩
            intro e hn hs hi
            simp at hs

theorem c7_failure_shape_witness :
    rStartFail.outputs.success = some ("false") ∧ rStartFail.outputs.state = none ∧
    "AccessDenied" = (JsError.mk true ("AccessDenied")).message := by
  have h := c7_failure_shape ⟨"my-crawler", "true", ""⟩ envStartFail 1 rStartFail
    ("AccessDenied") (by decide) rfl
  exact ⟨h.1, h.2.1, h.2.2.2.2.2 ⟨true, "AccessDenied"⟩ (by decide) rfl rfl⟩

/-- C9: when the thrown value is not an `Error` instance — at the start call or
at a status call — the process-level failure message is the fixed string
`"Unknown error occurred"` and the success output is still `"false"`. -/
theorem c9_unknown_error (inp : Inputs) (env : Env) (fuel : Nat) (e : JsError)
    (hname : inp.crawlerName ≠ "") (he : e.isError = false) :
    (env.startResult = Except.error e →
      ∃ r, run inp env fuel = some r ∧ r.failed = some ("Unknown error occurred") ∧
        r.outputs.success = some ("false")) ∧
    (env.startResult = Except.ok () →
      waitForCompletionOf inp.waitForCompletion = true →
      env.statusResult 0 = Except.error e → 0 < fuel →
      ∃ r, run inp env fuel = some r ∧ r.failed = some ("Unknown error occurred") ∧
        r.outputs.success = some ("false")) := by
  constructor
  · intro hstart
    refine ⟨_, run_start_error inp env fuel e hname hstart, ?_, rfl⟩
    simp [he]
  · intro hstart hwait h0 hfuel
    cases fuel with
    | zero => omega
    | succ n =>
      refine ⟨catchHandler e ⟨some ("true"), none, none, none, none⟩ ⟨1, 1, 0⟩,
        ?_, ?_, rfl⟩
      · rw [run_wait inp env (n + 1) hname hstart hwait]
        simp only [pollLoop, h0]
      · simp [catchHandler, he]

theorem c9_unknown_error_witness :
    ∃ r, run ⟨"my-crawler", "true", ""⟩ envStartThrow 1 = some r ∧
      r.failed = some ("Unknown error occurred") ∧
      r.outputs.success = some ("false") :=
  (c9_unknown_error ⟨"my-crawler", "true", ""⟩ envStartThrow 1 ⟨false, "a thrown string"⟩
    (by decide) rfl).1 rfl

/-- C10: when `timeout-minutes` parses to `NaN`, the timeout comparison is
false on every iteration, so the timeout branch is unreachable: with statuses
forever non-`READY` the loop never exits (no wall-clock bound applies), and
any failure can only be a status-call rejection. -/
theorem c10_nan_disables_timeout (inp : Inputs) (env : Env) (fuel : Nat)
    (hname : inp.crawlerName ≠ "")
    (hwait : waitForCompletionOf inp.waitForCompletion = true)
    (htm : timeoutMinutesOf inp.timeoutMinutes = none)
    (hstart : env.startResult = Except.ok ()) :
    ((∀ j, ∃ st, env.statusResult j = Except.ok st ∧ st ≠ some ("READY")) →
      run inp env fuel = none) ∧
    (∀ r msg, run inp env fuel = some r → r.failed = some msg →
      ∃ e, (∃ j, env.statusResult j = Except.error e) ∧
        msg = (if e.isError then e.message else ("Unknown error occurred"))) := by
  constructor
  · intro hst
    rw [run_wait inp env fuel hname hstart hwait, htm]
    simp only [Option.map_none']
    rw [pollLoop_none_of_nan env none hst fuel 0 ⟨some ("true"), none, none, none, none⟩
      ⟨1, 0, 0⟩]
  · intro r msg hr hf
    rw [run_wait inp env fuel hname hstart hwait, htm] at hr
    simp only [Option.map_none'] at hr
    cases hp : pollLoop env none none 0 fuel ⟨some ("true"), none, none, none, none⟩
        ⟨1, 0, 0⟩ with
    | none => rw [hp] at hr; simp at hr
    | some p =>
      obtain ⟨res, calls2⟩ := p
      cases res with
      | ok out2 =>
        rw [hp] at hr
        simp only [Option.some.injEq] at hr
        subst hr
        simp at hf
      | error e2 =>
        rw [hp] at hr
        simp only [Option.some.injEq] at hr
        subst hr
        obtain ⟨j, hj⟩ := pollLoop_error_of_nan env none fuel 0
          ⟨some ("true"), none, none, none, none⟩ ⟨1, 0, 0⟩ e2 calls2 hp
        refine ⟨e2, ⟨j, hj⟩, ?_⟩
        simp only [catchHandler, Option.some.injEq] at hf
        exact hf.symm

theorem c10_nan_disables_timeout_witness :
    run ⟨"my-crawler", "true", "abc"⟩ envTimeoutNow 5 = none :=
  (c10_nan_disables_timeout ⟨"my-crawler", "true", "abc"⟩ envTimeoutNow 5 (by decide)
    (by decide) (by decide) rfl).1 (fun j => ⟨some ("RUNNING"), rfl, by decide⟩)

/-- C8: input parsing. `wait-for-completion` is the equality test against
`"true"` (with the spec-modelled `action.yml` default `"true"` substituted
when the input is absent), and `timeout-minutes` is parsed as a base-10
integer — any nonempty digit string parses to its base-10 value, `digitsVal`
obeying the base-10 recurrence — with default 60 when absent (both through the
spec-modelled `action.yml` default and through the code's own `|| '60'`). -/
theorem c8_parsing :
    waitForCompletionOf ("true") = true ∧
    (∀ raw, getInputVal raw ≠ "true" → waitForCompletionOf raw = false) ∧
    waitForCompletionOf (actionDefault ("") ("true")) = true ∧
    timeoutMinutesOf (actionDefault ("") ("60")) = some 60 ∧
    timeoutMinutesOf ("") = some 60 ∧
    (∀ ds : List Char, ds ≠ [] → (∀ c ∈ ds, c.isDigit = true) →
      parseIntJS (String.mk ds) = some ((digitsVal ds : Nat) : Int)) ∧
    (∀ (ds : List Char) (c : Char),
      digitsVal (ds ++ [c]) = digitsVal ds * 10 + (c.toNat - 48)) := by
  refine ⟨by decide, ?_, by decide, by decide, by decide, parseIntJS_digits, ?_⟩
  · intro raw h
    simp only [waitForCompletionOf, beq_eq_false_iff_ne, ne_eq]
    exact h
  · intro ds c
    simp [digitsVal, List.foldl_append]

theorem c8_parsing_witness :
    waitForCompletionOf ("yes") = false ∧
    parseIntJS (String.mk ['4', '2']) = some 42 ∧
    digitsVal (['4'] ++ ['2']) = digitsVal ['4'] * 10 + ('2'.toNat - 48) := by
  refine ⟨c8_parsing.2.1 ("yes") (by decide), ?_, c8_parsing.2.2.2.2.2.2 (['4']) ('2')⟩
  have h := c8_parsing.2.2.2.2.2.1 ['4', '2'] (by decide) (by decide)
  rw [h]
  decide

end GlueCrawler
